import Mathlib

/-!
# Verification of the lab1 RPC system (`src/lab1/server/internal/app/run.go`)

Shallow embedding of the Go RPC server and client from
`rauan06/distributed-computing`, lab1.  The embedding follows the source:

* JSON values (`map[string]interface{}` entries, handler results) are an
  inductive `JValue`.  Go's `float64` JSON numbers are embedded as exact
  rationals `ℚ`; every numeric value appearing in the claims is exactly
  representable, and the arithmetic handlers are pure arithmetic on them.
* `RPCRequest` / `RPCResponse` mirror the Go structs; Go zero values
  (`nil` interface, `""` string) become `Option.none` / `""`.
* The server's `sync.Map` request log is a list of request ids; the
  per-request 5-minute expiry goroutine is timing-only and is not reached
  within the retention window the claims speak about.
* External nondeterminism (the wall clock, `json.Unmarshal` of an inbound
  datagram, the transport's behaviour on each client attempt) is passed in
  explicitly: `now : Int`, `Option RPCRequest` for a decoded buffer, and a
  list of per-attempt `Outcome`s for the client's retry loop.
-/

/-- JSON-representable dynamic values (`interface{}` after `encoding/json`). -/
inductive JValue where
  | num (q : ℚ)
  | str (s : String)
  | jbool (b : Bool)
  | null
  | arr (xs : List JValue)
  | obj (fields : List (String × JValue))

/-- Go `map[string]interface{}` with string keys, as an association list. -/
abbrev JParams := List (String × JValue)

/-- Lookup in a Go map: `params["a"]`; a missing key yields the nil
interface, i.e. `none`. -/
def lookupParam (k : String) : JParams → Option JValue
  | [] => none
  | (k', v) :: rest => if k' = k then some v else lookupParam k rest

/-- Go type assertion `.(float64)`: succeeds exactly on a JSON number. -/
def asNum : Option JValue → Option ℚ
  | some (.num q) => some q
  | _ => none

/-- Go type assertion `.(string)`: succeeds exactly on a JSON string. -/
def asStr : Option JValue → Option String
  | some (.str s) => some s
  | _ => none

/-- `RPCRequest` struct of run.go (request_id, method, params, timestamp). -/
structure RPCRequest where
  RequestID : String
  Method : String
  Params : JParams
  Timestamp : Int

/-- `RPCResponse` struct of run.go; `Result` is `interface{}` with
`omitempty` (nil ↦ `none`), `Error` defaults to `""`. -/
structure RPCResponse where
  RequestID : String
  Result : Option JValue
  Error : String
  Status : String

/-- Server state: the `Service.requestLog` sync.Map, keyed by request id
(the stored value is always `true`, so only the key set matters). -/
structure Service where
  requestLog : List String

/-- `Service.add`: both params must assert to `float64`, else the
validation error; otherwise `a + b`. -/
def Service.add (_s : Service) (params : JParams) : Except String JValue :=
  match asNum (lookupParam "a" params), asNum (lookupParam "b" params) with
  | some a, some b => .ok (.num (a + b))
  | _, _ => .error "parameters 'a' and 'b' must be numbers"

/-- `Service.subtract`: as `add`, result `a - b`. -/
def Service.subtract (_s : Service) (params : JParams) : Except String JValue :=
  match asNum (lookupParam "a" params), asNum (lookupParam "b" params) with
  | some a, some b => .ok (.num (a - b))
  | _, _ => .error "parameters 'a' and 'b' must be numbers"

/-- `Service.multiply`: as `add`, result `a * b`. -/
def Service.multiply (_s : Service) (params : JParams) : Except String JValue :=
  match asNum (lookupParam "a" params), asNum (lookupParam "b" params) with
  | some a, some b => .ok (.num (a * b))
  | _, _ => .error "parameters 'a' and 'b' must be numbers"

/-- `Service.divide`: type check first, then the `b == 0` guard, then
`a / b` (exact division in the rational embedding of float64). -/
def Service.divide (_s : Service) (params : JParams) : Except String JValue :=
  match asNum (lookupParam "a" params), asNum (lookupParam "b" params) with
  | some a, some b =>
      if b = 0 then .error "division by zero" else .ok (.num (a / b))
  | _, _ => .error "parameters 'a' and 'b' must be numbers"

/-- `Service.getTime`: returns `time.Now().Unix()`, passed in as `now`. -/
def Service.getTime (_s : Service) (now : Int) (_params : JParams) :
    Except String JValue :=
  .ok (.num (now : ℚ))

/-- `Service.reverseString`: `s` must assert to `string`; the rune slice
(here the character list) is reversed in place and re-packed. -/
def Service.reverseString (_s : Service) (params : JParams) :
    Except String JValue :=
  match asStr (lookupParam "s" params) with
  | some str => .ok (.str (String.mk str.data.reverse))
  | none => .error "parameter 's' must be a string"

/-- `Service.echo`: returns the params map unchanged. -/
def Service.echo (_s : Service) (params : JParams) : Except String JValue :=
  .ok (.obj params)

/-- The method dispatch `switch req.Method` of `ExecuteMethod`, including
the `default` branch for unknown methods. -/
def Service.dispatch (s : Service) (now : Int) (req : RPCRequest) :
    Except String JValue :=
  match req.Method with
  | "add" => s.add req.Params
  | "subtract" => s.subtract req.Params
  | "multiply" => s.multiply req.Params
  | "divide" => s.divide req.Params
  | "get_time" => s.getTime now req.Params
  | "reverse_string" => s.reverseString req.Params
  | "echo" => s.echo req.Params
  | m => .error ("unknown method: " ++ m)

/-- `Service.ExecuteMethod`: `LoadOrStore` on the request log — an already
seen id returns the DUPLICATE response without executing; a first sighting
records the id (before dispatch) and runs the method, producing an ERROR
response on handler error and an OK response with the result otherwise.
The random simulated delay and the 5-minute cleanup goroutine are
timing-only and have no effect within the retention window. -/
def Service.ExecuteMethod (s : Service) (now : Int) (req : RPCRequest) :
    RPCResponse × Service :=
  if req.RequestID ∈ s.requestLog then
    ({ RequestID := req.RequestID, Result := none,
       Error := "Request already processed", Status := "DUPLICATE" }, s)
  else
    let s' : Service := { requestLog := req.RequestID :: s.requestLog }
    match s'.dispatch now req with
    | .error e =>
        ({ RequestID := req.RequestID, Result := none,
           Error := e, Status := "ERROR" }, s')
    | .ok v =>
        ({ RequestID := req.RequestID, Result := some v,
           Error := "", Status := "OK" }, s')

/-- `Service.ParseInput`: JSON decoding of the raw buffer is external
(`json.Unmarshal`), so the decoded buffer arrives as `none` (malformed
JSON) or `some req`; then the two required-field checks, in source order. -/
def Service.ParseInput (_s : Service) (buffer : Option RPCRequest) :
    Except String RPCRequest :=
  match buffer with
  | none => .error "failed to parse JSON"
  | some req =>
      if req.RequestID = "" then .error "request_id is required"
      else if req.Method = "" then .error "method is required"
      else .ok req

/-- `Service.HandleErr`: the error response it marshals and sends — the
zero-value `RequestID` stays `""`, status ERROR, message `"<msg>: <err>"`. -/
def Service.HandleErr (_s : Service) (message : String) (err : String) :
    RPCResponse :=
  { RequestID := "", Result := none,
    Error := message ++ ": " ++ err, Status := "ERROR" }

/-- `handleMessage`: handles a single datagram.  Faithful to the source, it
constructs a FRESH `Service{}` (so a fresh, empty request log) for every
message.  Returns the response it sends plus whether `ExecuteMethod` was
reached (`false` on a parse failure, where only `HandleErr` runs). -/
def handleMessage (now : Int) (buffer : Option RPCRequest) :
    RPCResponse × Bool :=
  let service : Service := { requestLog := [] }
  match service.ParseInput buffer with
  | .error e => (service.HandleErr "error parsing inputs" e, false)
  | .ok msg => ((service.ExecuteMethod now msg).1, true)

/-- The server's receive loop body: each inbound datagram is passed to
`handleMessage` (in its own goroutine; each handling is independent and
builds its own fresh `Service`).  The responses produced for a sequence of
decoded datagrams. -/
def serverProcess (now : Int) (buffers : List (Option RPCRequest)) :
    List RPCResponse :=
  buffers.map (fun b => (handleMessage now b).1)

/-! ## Client side (`RPCClient`, `Call`, `generateRequestID`) -/

/-- What the transport does on one attempt of the client's retry loop:
the `WriteToUDP` send fails, the receive goroutine reports a read or
`json.Unmarshal` error, the per-attempt context times out, or a decoded
response is delivered on the response channel. -/
inductive Outcome where
  | sendErr (e : String)
  | recvErr (e : String)
  | timeout
  | resp (r : RPCResponse)

/-- `RPCClient` configuration (socket/address handles are external). The
`Timeout` is the per-attempt `time.Duration`, kept abstract as a `Nat`. -/
structure RPCClient where
  Timeout : Nat
  MaxRetries : Nat

/-- Whether an attempt delivered a decoded response. -/
def Outcome.isResp : Outcome → Bool
  | .resp _ => true
  | _ => false

/-- The `lastErr` the Go loop records for a failed attempt: the send
error, the receive/decode error, or `"timeout after <Timeout>"`. -/
def Outcome.errMsg (c : RPCClient) : Outcome → String
  | .sendErr e => e
  | .recvErr e => e
  | .timeout => "timeout after " ++ toString c.Timeout
  | .resp _ => ""

/-- The retry loop of `RPCClient.Call`: `remaining` attempts are left
(`MaxRetries + 1` at the start), `outcomes` gives the transport behaviour
per attempt (an exhausted list behaves as timeouts), `lastErr` is the last
recorded transport-level error.  Every iteration passes the SAME
`reqData` to `WriteToUDP`; the second component collects those payloads.
A delivered response returns immediately, whatever its contents; after the
last attempt the loop falls through to
`fmt.Errorf("max retries exceeded: %v", lastErr)`. -/
def callLoop (c : RPCClient) (reqData : RPCRequest) :
    Nat → List Outcome → String → Except String RPCResponse × List RPCRequest
  | 0, _, lastErr => (.error ("max retries exceeded: " ++ lastErr), [])
  | n + 1, outcomes, _lastErr =>
    match outcomes.headD .timeout with
    | .resp r => (.ok r, [reqData])
    | .sendErr e =>
        let rest := callLoop c reqData n outcomes.tail e
        (rest.1, reqData :: rest.2)
    | .recvErr e =>
        let rest := callLoop c reqData n outcomes.tail e
        (rest.1, reqData :: rest.2)
    | .timeout =>
        let rest := callLoop c reqData n outcomes.tail
          ("timeout after " ++ toString c.Timeout)
        (rest.1, reqData :: rest.2)

/-- `RPCClient.Call`: one `generateRequestID` reading (`requestID`), one
request built from it, marshalled once before the loop (the marshalling of
our value domain is injective, so the trace records the request itself as
the payload), then the retry loop with `MaxRetries + 1` attempts. -/
def RPCClient.Call (c : RPCClient) (requestID : String) (now : Int)
    (method : String) (params : JParams) (outcomes : List Outcome) :
    Except String RPCResponse × List RPCRequest :=
  let req : RPCRequest :=
    { RequestID := requestID, Method := method, Params := params,
      Timestamp := now }
  callLoop c req (c.MaxRetries + 1) outcomes ""

/-- Little-endian decimal digits of `n` with explicit fuel (fuel `n`
always suffices, since the argument at least halves each step); model of
the decimal rendering performed by `fmt.Sprintf("%d", ·)`. -/
def decDigitsAux : Nat → Nat → List Char
  | 0, _ => []
  | _ + 1, 0 => []
  | f + 1, n + 1 => Nat.digitChar ((n + 1) % 10) :: decDigitsAux f ((n + 1) / 10)

/-- Decimal rendering of a natural number, `fmt.Sprintf("%d", n)`. -/
def decRepr (n : Nat) : String :=
  if n = 0 then "0" else String.mk (decDigitsAux n n).reverse

/-- `generateRequestID`: `fmt.Sprintf("%d-%d", t, r)` where `t` is the
`time.Now().UnixNano()` reading and `r` the `rand.Intn(1000)` draw of that
invocation — both nondeterministic reads are passed in explicitly. -/
def generateRequestID (t r : Nat) : String :=
  decRepr t ++ "-" ++ decRepr r

/-- The identifiers produced along one process lifetime, given the
sequence of (clock reading, random discriminator) pairs its invocations
of `generateRequestID` observe. -/
def processRequestIDs (invocations : List (Nat × Nat)) : List String :=
  invocations.map fun p => generateRequestID p.1 p.2

/-- Numeric value of a decimal digit character. -/
def digitVal (c : Char) : Nat := c.toNat - '0'.toNat

/-- Value of a little-endian digit list. -/
def fromDigitsLE : List Char → Nat
  | [] => 0
  | c :: cs => digitVal c + 10 * fromDigitsLE cs

/-- Decode a decimal string (inverse of `decRepr`). -/
def decDecode (s : String) : Nat := fromDigitsLE s.data.reverse

/-! ## Claims about the method handlers -/

/-- C5: On numeric parameters the four arithmetic handlers compute the
exact operations — `add(5,7)=12`, `subtract(10,3)=7`, `multiply(4,6)=24`,
`divide(15,3)=5`, `divide(a,0)` is the "division by zero" error with no
result, and in general `add`, `subtract`, `multiply` return `a+b`, `a-b`,
`a*b`, and `divide` with `b ≠ 0` returns `a/b`, all without error. -/
theorem arithmetic_handlers_correct (s : Service) (a b : ℚ) (hb : b ≠ 0) :
    s.add [("a", .num a), ("b", .num b)] = .ok (.num (a + b)) ∧
    s.subtract [("a", .num a), ("b", .num b)] = .ok (.num (a - b)) ∧
    s.multiply [("a", .num a), ("b", .num b)] = .ok (.num (a * b)) ∧
    s.divide [("a", .num a), ("b", .num b)] = .ok (.num (a / b)) ∧
    s.divide [("a", .num a), ("b", .num 0)] = .error "division by zero" ∧
    s.add [("a", .num 5), ("b", .num 7)] = .ok (.num 12) ∧
    s.subtract [("a", .num 10), ("b", .num 3)] = .ok (.num 7) ∧
    s.multiply [("a", .num 4), ("b", .num 6)] = .ok (.num 24) ∧
    s.divide [("a", .num 15), ("b", .num 3)] = .ok (.num 5) := by
  refine ⟨?_, ?_, ?_, ?_, ?_, ?_, ?_, ?_, ?_⟩ <;>
    simp [Service.add, Service.subtract, Service.multiply, Service.divide,
          lookupParam, asNum, hb] <;> norm_num

/-- Witness for `arithmetic_handlers_correct` at `a = 15`, `b = 3`. -/
theorem arithmetic_handlers_correct_witness :
    (Service.mk []).divide [("a", .num 15), ("b", .num 3)] = .ok (.num 5) :=
  (arithmetic_handlers_correct (Service.mk []) 15 3 (by norm_num)).2.2.2.2.2.2.2.2

/-- C10: `reverse_string` is an involution on its parameter: for every
string `v` (the empty string and multi-byte strings included, since the
handler reverses the rune list), the handler maps `v` to some `w`, maps
`w` back to `v`, and `w` has the same rune count as `v`. -/
theorem reverseString_involutive (s : Service) (v : String) :
    ∃ w : String,
      s.reverseString [("s", .str v)] = .ok (.str w) ∧
      s.reverseString [("s", .str w)] = .ok (.str v) ∧
      w.data.length = v.data.length := by
  refine ⟨String.mk v.data.reverse,
    by simp [Service.reverseString, lookupParam, asStr], ?_, by simp⟩
  simp [Service.reverseString, lookupParam, asStr]

/-- C6: a params mapping whose `a` or `b` does not assert to a number
makes every arithmetic handler return the validation error (and no
result), and the error message contains the offending parameter's name
(it names both `'a'` and `'b'`); a non-string `s` makes `reverse_string`
return the validation error naming `'s'`. -/
theorem type_validation_names_offender (s : Service) (params : JParams) :
    ((asNum (lookupParam "a" params) = none ∨
      asNum (lookupParam "b" params) = none) →
      s.add params = .error "parameters 'a' and 'b' must be numbers" ∧
      s.subtract params = .error "parameters 'a' and 'b' must be numbers" ∧
      s.multiply params = .error "parameters 'a' and 'b' must be numbers" ∧
      s.divide params = .error "parameters 'a' and 'b' must be numbers" ∧
      "'a'".data <:+: "parameters 'a' and 'b' must be numbers".data ∧
      "'b'".data <:+: "parameters 'a' and 'b' must be numbers".data) ∧
    (asStr (lookupParam "s" params) = none →
      s.reverseString params = .error "parameter 's' must be a string" ∧
      "'s'".data <:+: "parameter 's' must be a string".data) := by
  constructor
  · intro h
    refine ⟨?_, ?_, ?_, ?_, by decide, by decide⟩ <;>
      · cases ha : asNum (lookupParam "a" params) <;>
          cases hb : asNum (lookupParam "b" params) <;>
          simp_all [Service.add, Service.subtract, Service.multiply,
            Service.divide]
  · intro h
    refine ⟨?_, by decide⟩
    cases hs : asStr (lookupParam "s" params) <;>
      simp_all [Service.reverseString]

/-- Witness for `type_validation_names_offender` with
`params = [a ↦ "x", b ↦ 1]` (so `a` is non-numeric and `s` is absent). -/
theorem type_validation_names_offender_witness :
    (Service.mk []).add [("a", .str "x"), ("b", .num 1)]
        = .error "parameters 'a' and 'b' must be numbers" ∧
    (Service.mk []).reverseString [("a", .str "x"), ("b", .num 1)]
        = .error "parameter 's' must be a string" :=
  ⟨((type_validation_names_offender (Service.mk [])
      [("a", .str "x"), ("b", .num 1)]).1 (Or.inl rfl)).1,
   ((type_validation_names_offender (Service.mk [])
      [("a", .str "x"), ("b", .num 1)]).2 rfl).1⟩

/-- A string starting with a nonempty literal is nonempty. -/
theorem append_ne_empty_left (a b : String) (ha : a ≠ "") : a ++ b ≠ "" := by
  intro h
  have hd : (a ++ b).data = ("" : String).data := congrArg String.data h
  rw [String.data_append] at hd
  have := List.append_eq_nil.mp hd
  exact ha (String.ext this.1)

/-- The only error `add` produces is the type-validation message. -/
theorem add_error_eq (s : Service) (params : JParams) (e : String)
    (h : s.add params = .error e) :
    e = "parameters 'a' and 'b' must be numbers" := by
  revert h
  unfold Service.add
  cases asNum (lookupParam "a" params) <;>
    cases asNum (lookupParam "b" params) <;> intro h <;> simp_all

/-- The only error `subtract` produces is the type-validation message. -/
theorem subtract_error_eq (s : Service) (params : JParams) (e : String)
    (h : s.subtract params = .error e) :
    e = "parameters 'a' and 'b' must be numbers" := by
  revert h
  unfold Service.subtract
  cases asNum (lookupParam "a" params) <;>
    cases asNum (lookupParam "b" params) <;> intro h <;> simp_all

/-- The only error `multiply` produces is the type-validation message. -/
theorem multiply_error_eq (s : Service) (params : JParams) (e : String)
    (h : s.multiply params = .error e) :
    e = "parameters 'a' and 'b' must be numbers" := by
  revert h
  unfold Service.multiply
  cases asNum (lookupParam "a" params) <;>
    cases asNum (lookupParam "b" params) <;> intro h <;> simp_all

/-- `divide` errors are the type-validation message or division by zero. -/
theorem divide_error_eq (s : Service) (params : JParams) (e : String)
    (h : s.divide params = .error e) :
    e = "parameters 'a' and 'b' must be numbers" ∨ e = "division by zero" := by
  revert h
  unfold Service.divide
  cases asNum (lookupParam "a" params) <;>
    cases asNum (lookupParam "b" params) <;>
    intro h <;> (try split at h) <;> (try split at h) <;> simp_all

/-- The only error `reverseString` produces is its validation message. -/
theorem reverseString_error_eq (s : Service) (params : JParams) (e : String)
    (h : s.reverseString params = .error e) :
    e = "parameter 's' must be a string" := by
  revert h
  unfold Service.reverseString
  cases asStr (lookupParam "s" params) <;> intro h <;> simp_all

/-- Every error the method dispatch can produce has a nonempty message. -/
theorem dispatch_error_ne_empty (s : Service) (now : Int) (req : RPCRequest)
    {e : String} (h : s.dispatch now req = .error e) : e ≠ "" := by
  unfold Service.dispatch at h
  split at h
  · rw [add_error_eq s _ e h]; decide
  · rw [subtract_error_eq s _ e h]; decide
  · rw [multiply_error_eq s _ e h]; decide
  · rcases divide_error_eq s _ e h with h' | h' <;> (rw [h']; decide)
  · simp [Service.getTime] at h
  · rw [reverseString_error_eq s _ e h]; decide
  · simp [Service.echo] at h
  · rw [Except.error.injEq] at h
    subst h
    exact append_ne_empty_left _ _ (by decide)

/-- C3: for every request accepted by `ParseInput`, the response built by
`ExecuteMethod` echoes the request's `RequestID`, has a status in
{OK, ERROR, DUPLICATE}, carries a result exactly when the status is OK,
and a nonempty error message exactly when the status is ERROR or
DUPLICATE — exactly one of result/error is populated. -/
theorem response_envelope_invariant (s : Service) (now : Int)
    (buffer : Option RPCRequest) (req : RPCRequest)
    (_hparse : s.ParseInput buffer = .ok req) :
    (s.ExecuteMethod now req).1.RequestID = req.RequestID ∧
    ((s.ExecuteMethod now req).1.Status = "OK" ∨
     (s.ExecuteMethod now req).1.Status = "ERROR" ∨
     (s.ExecuteMethod now req).1.Status = "DUPLICATE") ∧
    ((s.ExecuteMethod now req).1.Result.isSome ↔
      (s.ExecuteMethod now req).1.Status = "OK") ∧
    ((s.ExecuteMethod now req).1.Error ≠ "" ↔
      ((s.ExecuteMethod now req).1.Status = "ERROR" ∨
       (s.ExecuteMethod now req).1.Status = "DUPLICATE")) := by
  unfold Service.ExecuteMethod
  by_cases hdup : req.RequestID ∈ s.requestLog
  · simp [hdup]
  · cases hd : Service.dispatch ⟨req.RequestID :: s.requestLog⟩ now req with
    | error e =>
        have hne := dispatch_error_ne_empty _ now req hd
        simp [hdup, hd, hne]
    | ok v => simp [hdup, hd]

/-- Witness for `response_envelope_invariant` on a parsed echo request. -/
theorem response_envelope_invariant_witness :
    ((Service.mk []).ExecuteMethod 0 ⟨"id-1", "echo", [], 0⟩).1.RequestID
      = "id-1" :=
  (response_envelope_invariant (Service.mk []) 0
    (some ⟨"id-1", "echo", [], 0⟩) ⟨"id-1", "echo", [], 0⟩ rfl).1

/-- C4: a buffer that is malformed JSON (`none`) or decodes to a request
with an empty `request_id` or `method` makes `ParseInput` fail, and
`handleMessage` then sends an ERROR response without reaching
`ExecuteMethod` (so no method handler runs); a buffer decoding to a
request with both fields nonempty is accepted and returned verbatim. -/
theorem request_validation (now : Int) (buffer : Option RPCRequest) :
    ((∀ req, buffer = some req → req.RequestID = "" ∨ req.Method = "") →
      (∃ e, (Service.mk []).ParseInput buffer = .error e) ∧
      (handleMessage now buffer).2 = false ∧
      (handleMessage now buffer).1.Status = "ERROR") ∧
    (∀ req, buffer = some req → req.RequestID ≠ "" → req.Method ≠ "" →
      (Service.mk []).ParseInput buffer = .ok req) := by
  constructor
  · intro h
    cases buffer with
    | none =>
        refine ⟨⟨"failed to parse JSON", rfl⟩, ?_, ?_⟩ <;>
          simp [handleMessage, Service.ParseInput, Service.HandleErr]
    | some req =>
        rcases h req rfl with h' | h'
        · refine ⟨⟨"request_id is required", ?_⟩, ?_, ?_⟩ <;>
            simp [handleMessage, Service.ParseInput, Service.HandleErr, h']
        · by_cases hid : req.RequestID = ""
          · refine ⟨⟨"request_id is required", ?_⟩, ?_, ?_⟩ <;>
              simp [handleMessage, Service.ParseInput, Service.HandleErr, hid]
          · refine ⟨⟨"method is required", ?_⟩, ?_, ?_⟩ <;>
              simp [handleMessage, Service.ParseInput, Service.HandleErr,
                hid, h']
  · intro req hb hid hm
    subst hb
    simp [Service.ParseInput, hid, hm]

/-- Witness for `request_validation`: an empty `request_id` is rejected
before dispatch, and a well-formed echo request is accepted. -/
theorem request_validation_witness :
    (handleMessage 0 (some ⟨"", "add", [], 0⟩)).2 = false ∧
    (Service.mk []).ParseInput (some ⟨"id-1", "echo", [], 0⟩)
      = .ok ⟨"id-1", "echo", [], 0⟩ :=
  ⟨((request_validation 0 (some ⟨"", "add", [], 0⟩)).1
      (fun req h => by cases h; exact Or.inl rfl)).2.1,
   (request_validation 0 (some ⟨"id-1", "echo", [], 0⟩)).2
      ⟨"id-1", "echo", [], 0⟩ rfl (by decide) (by decide)⟩

/-! ## The duplicate-suppression mechanism (C1) -/

/-- When the request log IS shared between deliveries (one `Service`
instance threaded through), a second delivery of the same request id is
answered DUPLICATE: this is the at-most-once mechanism `ExecuteMethod`
implements. -/
theorem ExecuteMethod_shared_service_dedup (s : Service) (now : Int)
    (req : RPCRequest) :
    (((s.ExecuteMethod now req).2).ExecuteMethod now req).1.Status
      = "DUPLICATE" := by
  unfold Service.ExecuteMethod
  by_cases h : req.RequestID ∈ s.requestLog
  · simp [h]
  · cases hd : Service.dispatch ⟨req.RequestID :: s.requestLog⟩ now req <;>
      simp [h, hd]

/-- C1, evaluated at the failing input: `handleMessage` builds a FRESH
`Service{}` (hence a fresh, empty request log) for every datagram, so the
log `ExecuteMethod` consults is never shared between deliveries.
Delivering the identical encoded `add` request twice (well within any
retention window) therefore executes the handler twice and produces two OK
responses and no DUPLICATE — against the claimed one-OK/one-DUPLICATE. -/
theorem duplicate_request_executed_twice :
    serverProcess 0
        [some ⟨"req-1", "add", [("a", .num 5), ("b", .num 7)], 0⟩,
         some ⟨"req-1", "add", [("a", .num 5), ("b", .num 7)], 0⟩]
      = [⟨"req-1", some (.num 12), "", "OK"⟩,
         ⟨"req-1", some (.num 12), "", "OK"⟩] ∧
    ∀ r ∈ serverProcess 0
        [some ⟨"req-1", "add", [("a", .num 5), ("b", .num 7)], 0⟩,
         some ⟨"req-1", "add", [("a", .num 5), ("b", .num 7)], 0⟩],
      r.Status ≠ "DUPLICATE" := by
  have h1 : serverProcess 0
        [some ⟨"req-1", "add", [("a", .num 5), ("b", .num 7)], 0⟩,
         some ⟨"req-1", "add", [("a", .num 5), ("b", .num 7)], 0⟩]
      = [⟨"req-1", some (.num 12), "", "OK"⟩,
         ⟨"req-1", some (.num 12), "", "OK"⟩] := by
    simp [serverProcess, handleMessage, Service.ParseInput,
      Service.ExecuteMethod, Service.dispatch, Service.add, lookupParam,
      asNum]
    norm_num
  refine ⟨h1, ?_⟩
  intro r hr
  rw [h1] at hr
  simp only [List.mem_cons, List.not_mem_nil, or_false] at hr
  rcases hr with hr | hr <;> (subst hr; decide)

/-! ## Client retry loop (C2, C7, C8) -/

/-- Any response `callLoop` returns was delivered by the transport. -/
theorem callLoop_ok_mem (c : RPCClient) (req : RPCRequest) :
    ∀ (n : Nat) (outcomes : List Outcome) (lastErr : String)
      (r : RPCResponse),
      (callLoop c req n outcomes lastErr).1 = .ok r →
      Outcome.resp r ∈ outcomes := by
  intro n
  induction n with
  | zero => intro outcomes lastErr r h; simp [callLoop] at h
  | succ n ih =>
      intro outcomes lastErr r h
      cases outcomes with
      | nil =>
          rw [callLoop] at h
          exact absurd (ih _ _ _ h) (List.not_mem_nil _)
      | cons o os =>
          rw [callLoop] at h
          cases o with
          | resp r' =>
              simp only [List.headD_cons] at h
              cases h
              exact List.mem_cons_self _ _
          | sendErr e => exact List.mem_cons_of_mem _ (ih _ _ _ h)
          | recvErr e => exact List.mem_cons_of_mem _ (ih _ _ _ h)
          | timeout => exact List.mem_cons_of_mem _ (ih _ _ _ h)

/-- C2 (amended): `Call` performs no correlation matching.  It returns
the first response the transport delivers and successfully decodes,
whatever `RequestID` that response carries (in particular one differing
from the id generated for this call); and any response it returns is one
the transport delivered. -/
theorem Call_returns_first_response (c : RPCClient) (rid : String)
    (now : Int) (method : String) (params : JParams) (r : RPCResponse)
    (rest : List Outcome) :
    (c.Call rid now method params (.resp r :: rest)).1 = .ok r ∧
    ∀ (outcomes : List Outcome) (r' : RPCResponse),
      (c.Call rid now method params outcomes).1 = .ok r' →
      Outcome.resp r' ∈ outcomes :=
  ⟨rfl, fun outcomes r' h => callLoop_ok_mem c _ _ outcomes "" r' h⟩

/-- Witness for `Call_returns_first_response`: a delivered response with
request_id "B" while the call's id is "A" is returned, and it indeed came
from the transport. -/
theorem Call_returns_first_response_witness :
    ((RPCClient.mk 2 3).Call "A" 0 "add" []
        [.resp ⟨"B", some (.num 1), "", "OK"⟩]).1
      = .ok ⟨"B", some (.num 1), "", "OK"⟩ ∧
    Outcome.resp ⟨"B", some (.num 1), "", "OK"⟩
      ∈ [Outcome.resp ⟨"B", some (.num 1), "", "OK"⟩] :=
  ⟨(Call_returns_first_response (RPCClient.mk 2 3) "A" 0 "add" []
      ⟨"B", some (.num 1), "", "OK"⟩ []).1,
   (Call_returns_first_response (RPCClient.mk 2 3) "A" 0 "add" []
      ⟨"B", some (.num 1), "", "OK"⟩ []).2
     [.resp ⟨"B", some (.num 1), "", "OK"⟩] _ rfl⟩

/-- C2, counterexample to the claim as stated: the generated correlation
id is "A", the transport delivers a response whose request_id is "B", and
`Call` returns that mismatched response as the call's result instead of
discarding it. -/
theorem Call_mismatched_response_returned :
    ((RPCClient.mk 2 3).Call "A" 0 "add" []
        [.resp ⟨"B", some (.num 1), "", "OK"⟩]).1
      = .ok ⟨"B", some (.num 1), "", "OK"⟩ ∧
    ("B" : String) ≠ "A" :=
  ⟨rfl, by decide⟩

/-- Every payload `callLoop` hands to `WriteToUDP` is the request it was
given. -/
theorem callLoop_sends_same_payload (c : RPCClient) (req : RPCRequest) :
    ∀ (n : Nat) (outcomes : List Outcome) (lastErr : String),
      ∀ b ∈ (callLoop c req n outcomes lastErr).2, b = req := by
  intro n
  induction n with
  | zero => intro outcomes lastErr b hb; simp [callLoop] at hb
  | succ n ih =>
      intro outcomes lastErr b hb
      rw [callLoop] at hb
      cases h : outcomes.headD .timeout <;> rw [h] at hb <;>
        simp only [List.mem_cons, List.not_mem_nil, or_false] at hb
      case resp r => exact hb
      case sendErr e =>
        rcases hb with rfl | hb
        · rfl
        · exact ih _ _ b hb
      case recvErr e =>
        rcases hb with rfl | hb
        · rfl
        · exact ih _ _ b hb
      case timeout =>
        rcases hb with rfl | hb
        · rfl
        · exact ih _ _ b hb

/-- C8: the request is built and marshalled once, before the retry loop,
from the single generated correlation id; every attempt — the initial
send and every retry — transmits that identical encoded request. -/
theorem Call_encodes_once (c : RPCClient) (rid : String) (now : Int)
    (method : String) (params : JParams) (outcomes : List Outcome) :
    ∀ b ∈ (c.Call rid now method params outcomes).2,
      b = { RequestID := rid, Method := method, Params := params,
            Timestamp := now } :=
  fun b hb => callLoop_sends_same_payload c _ _ outcomes "" b hb

/-- Witness for `Call_encodes_once`: with two failing attempts, the first
recorded payload is the one request built from id "A". -/
theorem Call_encodes_once_witness :
    (((RPCClient.mk 2 1).Call "A" 0 "add" []
        [.timeout, .recvErr "x"]).2).headD ⟨"", "", [], 0⟩
      = ⟨"A", "add", [], 0⟩ :=
  Call_encodes_once (RPCClient.mk 2 1) "A" 0 "add" []
    [.timeout, .recvErr "x"] _ (List.mem_cons_self _ _)

/-- The last transport-level error the retry loop has recorded after `n`
further attempts that all fail: for `n = 0` the incoming `lastErr`, else
the error of the last consumed outcome. -/
def lastErrAfter (c : RPCClient) (outcomes : List Outcome)
    (lastErr : String) : Nat → String
  | 0 => lastErr
  | m + 1 => (outcomes.getD m .timeout).errMsg c

/-- If every one of the `n` attempts fails, `callLoop` falls through to
the terminal error carrying the last recorded transport-level error. -/
theorem callLoop_exhausted (c : RPCClient) (req : RPCRequest) :
    ∀ (n : Nat) (outcomes : List Outcome) (lastErr : String),
      (∀ o ∈ outcomes.take n, o.isResp = false) →
      (callLoop c req n outcomes lastErr).1
        = .error ("max retries exceeded: "
            ++ lastErrAfter c outcomes lastErr n) := by
  intro n
  induction n with
  | zero => intro outcomes lastErr _; rfl
  | succ n ih =>
      intro outcomes lastErr hfail
      cases outcomes with
      | nil =>
          rw [callLoop]
          have := ih [] ("timeout after " ++ toString c.Timeout)
            (by intro o ho; simp at ho)
          simp only [List.headD_nil, List.tail_nil] at *
          rw [this]
          congr 1
          cases n <;> simp [lastErrAfter, List.getD, Outcome.errMsg]
      | cons o os =>
          have ho : o.isResp = false := hfail o (by simp)
          have htail : ∀ x ∈ os.take n, x.isResp = false := by
            intro x hx
            exact hfail x (by simp [List.take_cons]; right; exact hx)
          rw [callLoop]
          cases o with
          | resp r => simp [Outcome.isResp] at ho
          | sendErr e =>
              simp only [List.headD_cons, List.tail_cons]
              rw [(by rfl :
                (let rest := callLoop c req n os e
                 ((rest.1, req :: rest.2) :
                    Except String RPCResponse × List RPCRequest)).1
                  = (callLoop c req n os e).1)]
              rw [ih os e htail]
              congr 1
              cases n <;> simp [lastErrAfter, List.getD, Outcome.errMsg]
          | recvErr e =>
              simp only [List.headD_cons, List.tail_cons]
              rw [(by rfl :
                (let rest := callLoop c req n os e
                 ((rest.1, req :: rest.2) :
                    Except String RPCResponse × List RPCRequest)).1
                  = (callLoop c req n os e).1)]
              rw [ih os e htail]
              congr 1
              cases n <;> simp [lastErrAfter, List.getD, Outcome.errMsg]
          | timeout =>
              simp only [List.headD_cons, List.tail_cons]
              rw [(by rfl :
                (let rest := callLoop c req n os
                    ("timeout after " ++ toString c.Timeout)
                 ((rest.1, req :: rest.2) :
                    Except String RPCResponse × List RPCRequest)).1
                  = (callLoop c req n os
                      ("timeout after " ++ toString c.Timeout)).1)]
              rw [ih os _ htail]
              congr 1
              cases n <;> simp [lastErrAfter, List.getD, Outcome.errMsg]

/-- If `callLoop` ends in the terminal error, none of its attempts
delivered a response. -/
theorem callLoop_error_no_response (c : RPCClient) (req : RPCRequest) :
    ∀ (n : Nat) (outcomes : List Outcome) (lastErr s : String),
      (callLoop c req n outcomes lastErr).1 = .error s →
      ∀ o ∈ outcomes.take n, o.isResp = false := by
  intro n
  induction n with
  | zero => intro outcomes lastErr s _ o ho; simp at ho
  | succ n ih =>
      intro outcomes lastErr s h o ho
      cases outcomes with
      | nil => simp at ho
      | cons x os =>
          rw [callLoop] at h
          rw [List.take_succ_cons, List.mem_cons] at ho
          cases x with
          | resp r => simp only [List.headD_cons] at h; cases h
          | sendErr e =>
              rcases ho with rfl | ho
              · rfl
              · exact ih os e s h o ho
          | recvErr e =>
              rcases ho with rfl | ho
              · rfl
              · exact ih os e s h o ho
          | timeout =>
              rcases ho with rfl | ho
              · rfl
              · exact ih os _ s h o ho

/-- C7: if every one of the `MaxRetries + 1` attempts (initial try plus
retries) fails — timeout, transport error or decode error, no response
delivered — `Call` returns no response but the terminal
"max retries exceeded" error carrying the last transport-level error
observed; conversely, whenever `Call` returns that terminal error, no
attempt within the budget delivered a response. -/
theorem Call_retries_exhausted (c : RPCClient) (rid : String) (now : Int)
    (method : String) (params : JParams) (outcomes : List Outcome) :
    ((∀ o ∈ outcomes.take (c.MaxRetries + 1), o.isResp = false) →
      (c.Call rid now method params outcomes).1
        = .error ("max retries exceeded: "
            ++ (outcomes.getD c.MaxRetries Outcome.timeout).errMsg c)) ∧
    (∀ s, (c.Call rid now method params outcomes).1 = .error s →
      ∀ o ∈ outcomes.take (c.MaxRetries + 1), o.isResp = false) := by
  constructor
  · intro h
    exact callLoop_exhausted c _ (c.MaxRetries + 1) outcomes "" h
  · intro s h
    exact callLoop_error_no_response c _ (c.MaxRetries + 1) outcomes "" s h

/-- Witness for `Call_retries_exhausted`: two attempts, a timeout then a
decode failure "boom"; the terminal error carries "boom". -/
theorem Call_retries_exhausted_witness :
    ((RPCClient.mk 2 1).Call "A" 0 "add" [] [.timeout, .recvErr "boom"]).1
      = .error "max retries exceeded: boom" :=
  (Call_retries_exhausted (RPCClient.mk 2 1) "A" 0 "add" []
    [.timeout, .recvErr "boom"]).1 (by decide)

/-! ## Correlation-id generation (C9) -/

/-- A digit below ten renders as a decimal digit character. -/
theorem digitChar_isDigit (d : Nat) (h : d < 10) :
    (Nat.digitChar d).isDigit = true := by
  interval_cases d <;> decide

/-- `digitVal` inverts `Nat.digitChar` on digits below ten. -/
theorem digitVal_digitChar (d : Nat) (h : d < 10) :
    digitVal (Nat.digitChar d) = d := by
  interval_cases d <;> decide

/-- With sufficient fuel, decoding the digit list recovers the number. -/
theorem fromDigitsLE_decDigitsAux :
    ∀ f n : Nat, n ≤ f → fromDigitsLE (decDigitsAux f n) = n := by
  intro f
  induction f with
  | zero =>
      intro n hn
      interval_cases n
      rfl
  | succ f ih =>
      intro n hn
      cases n with
      | zero => rfl
      | succ m =>
          rw [decDigitsAux, fromDigitsLE]
          have hdiv : (m + 1) / 10 < m + 1 :=
            Nat.div_lt_self (Nat.succ_pos m) (by norm_num)
          rw [ih ((m + 1) / 10) (by omega)]
          rw [digitVal_digitChar _ (Nat.mod_lt _ (by norm_num))]
          exact Nat.mod_add_div (m + 1) 10

/-- `decDecode` is a left inverse of `decRepr`. -/
theorem decDecode_decRepr (n : Nat) : decDecode (decRepr n) = n := by
  by_cases h : n = 0
  · subst h; rfl
  · rw [decRepr, if_neg h]
    unfold decDecode
    rw [show (String.mk (decDigitsAux n n).reverse).data
          = (decDigitsAux n n).reverse from rfl]
    rw [List.reverse_reverse]
    exact fromDigitsLE_decDigitsAux n n le_rfl

/-- Decimal rendering is injective. -/
theorem decRepr_inj {m n : Nat} (h : decRepr m = decRepr n) : m = n := by
  have := congrArg decDecode h
  rwa [decDecode_decRepr, decDecode_decRepr] at this

/-- Every character produced by the digit recursion is a decimal digit. -/
theorem decDigitsAux_digits :
    ∀ f n : Nat, ∀ c ∈ decDigitsAux f n, c.isDigit = true := by
  intro f
  induction f with
  | zero => intro n c hc; simp [decDigitsAux] at hc
  | succ f ih =>
      intro n c hc
      cases n with
      | zero => simp [decDigitsAux] at hc
      | succ m =>
          rw [decDigitsAux] at hc
          rcases List.mem_cons.mp hc with rfl | hc
          · exact digitChar_isDigit _ (Nat.mod_lt _ (by norm_num))
          · exact ih _ c hc

/-- Every character of a rendered decimal number is a digit. -/
theorem decRepr_digits (n : Nat) : ∀ c ∈ (decRepr n).data, c.isDigit = true := by
  intro c hc
  by_cases h : n = 0
  · subst h
    simp only [decRepr, if_pos rfl] at hc
    rcases List.mem_singleton.mp hc with rfl
    decide
  · rw [decRepr, if_neg h] at hc
    exact decDigitsAux_digits n n c (List.mem_reverse.mp hc)

/-- A decimal digit character is not the separator `'-'`. -/
theorem isDigit_ne_dash {c : Char} (h : c.isDigit = true) : c ≠ '-' := by
  intro heq
  rw [heq] at h
  exact absurd h (by decide)

/-- Splitting at the first `'-'` of a dash-separated concatenation is
unambiguous when neither first component contains a dash. -/
theorem append_cons_dash_inj :
    ∀ a c b d : List Char,
      (∀ x ∈ a, x ≠ '-') → (∀ x ∈ c, x ≠ '-') →
      a ++ '-' :: b = c ++ '-' :: d → a = c ∧ b = d := by
  intro a
  induction a with
  | nil =>
      intro c b d _ hc h
      cases c with
      | nil => simpa using h
      | cons y c' =>
          simp only [List.nil_append, List.cons_append, List.cons.injEq] at h
          exact absurd h.1.symm (hc y (by simp))
  | cons x a' ih =>
      intro c b d ha hc h
      cases c with
      | nil =>
          simp only [List.cons_append, List.nil_append, List.cons.injEq] at h
          exact absurd h.1 (ha x (by simp))
      | cons y c' =>
          simp only [List.cons_append, List.cons.injEq] at h
          obtain ⟨rfl, h2⟩ := h
          have hrec := ih c' b d (fun z hz => ha z (by simp [hz]))
            (fun z hz => hc z (by simp [hz])) h2
          exact ⟨by rw [hrec.1], hrec.2⟩

/-- C9 (amended): the identifier encoding is injective on the observed
(clock reading, random discriminator) pairs — two invocations of
`generateRequestID` produce the same string only if they observed the
same nanosecond reading AND drew the same discriminator.  (Uniqueness
across the process lifetime is exactly as strong as the distinctness of
those pairs, which the code does not enforce.) -/
theorem generateRequestID_inj (t₁ r₁ t₂ r₂ : Nat)
    (h : (t₁, r₁) ≠ (t₂, r₂)) :
    generateRequestID t₁ r₁ ≠ generateRequestID t₂ r₂ := by
  intro heq
  apply h
  have hd : (decRepr t₁).data ++ '-' :: (decRepr r₁).data
      = (decRepr t₂).data ++ '-' :: (decRepr r₂).data := by
    have hdata := congrArg String.data heq
    simpa [generateRequestID, String.data_append] using hdata
  obtain ⟨h1, h2⟩ := append_cons_dash_inj _ _ _ _
    (fun x hx => isDigit_ne_dash (decRepr_digits t₁ x hx))
    (fun x hx => isDigit_ne_dash (decRepr_digits t₂ x hx)) hd
  rw [decRepr_inj (String.ext h1), decRepr_inj (String.ext h2)]

/-- Witness for `generateRequestID_inj`: same clock reading, different
random discriminator — distinct identifiers. -/
theorem generateRequestID_inj_witness :
    generateRequestID 100 5 ≠ generateRequestID 100 6 :=
  generateRequestID_inj 100 5 100 6 (by decide)

/-- C9, counterexample to the claim as stated: a feasible process trace
(every random discriminator below 1000) in which two DISTINCT invocations
observe the same clock reading and the same random draw; the identifiers
they produce coincide, so the ids generated across the process lifetime
are not unique. -/
theorem generateRequestID_not_unique :
    (∀ p ∈ ([(100, 5), (100, 5)] : List (Nat × Nat)), p.2 < 1000) ∧
    ¬ (processRequestIDs [(100, 5), (100, 5)]).Nodup :=
  ⟨by decide, by decide⟩
